import Mathlib

/-!
Verification of the personal-finance-tracker backend against its
natural-language specification.

The development shallowly embeds the business logic of the repository:

* the budget progress engine (`calculate_budget_progress` in
  `app/api/v1/endpoints/budgets.py`),
* the income-vs-expenses aggregation (`get_income_vs_expenses` in
  `app/services/influx_service.py`),
* the analytics range endpoints (`app/api/v1/endpoints/analytics.py`),
* the monthly-comparison month arithmetic (`get_monthly_comparison`),
* the budget store operations (`create_budget`, `update_budget`,
  `delete_budget`) and their category/window overlap invariant.

Monetary amounts are modelled as rationals, timestamps for the budget
store and range endpoints as integers (only their order matters there),
and calendar arithmetic for the monthly comparison with an explicit
Gregorian civil-date type.
-/

namespace FinanceTracker

/-! ## Budget progress engine

Embedding of `calculate_budget_progress`
(`src/app/api/v1/endpoints/budgets.py`, lines 32-75).  The database
aggregation supplies `spent_amount`; the pure part of the function maps
`spent_amount` and the budget's `limit_amount` to a `BudgetProgress`.
-/

inductive BudgetStatus where
  | safe
  | warning
  | critical
  | exceeded
deriving DecidableEq, Repr

/-- Round-half-to-even of a rational to an integer: the tie-breaking rule of
the builtin `round` in the source language. -/
def roundHalfEven (x : ℚ) : ℤ :=
  let f : ℤ := ⌊x⌋
  let r : ℚ := x - f
  if r < 1/2 then f
  else if 1/2 < r then f + 1
  else if 2 ∣ f then f else f + 1

/-- `round(x, 2)`: round to two decimal places, ties to even. -/
def round2 (x : ℚ) : ℚ := (roundHalfEven (x * 100) : ℚ) / 100

structure BudgetProgress where
  spent_amount : ℚ
  remaining_amount : ℚ
  percentage_used : ℚ
  status : BudgetStatus
  is_over_budget : Bool
deriving DecidableEq, Repr

/-- The pure core of `calculate_budget_progress` (budgets.py lines 55-75):
given the aggregated expense sum and the budget limit, derive remaining
amount, percentage used, status and the over-budget flag.  The status is
computed from the unrounded percentage; only the returned
`percentage_used` field is rounded. -/
def calculate_budget_progress (spent_amount limit_amount : ℚ) : BudgetProgress :=
  let remaining_amount := limit_amount - spent_amount
  let percentage_used : ℚ :=
    if limit_amount > 0 then spent_amount / limit_amount * 100 else 0
  let budget_status :=
    if percentage_used ≥ 100 then BudgetStatus.exceeded
    else if percentage_used ≥ 90 then BudgetStatus.critical
    else if percentage_used ≥ 70 then BudgetStatus.warning
    else BudgetStatus.safe
  { spent_amount := spent_amount
    remaining_amount := remaining_amount
    percentage_used := round2 percentage_used
    status := budget_status
    is_over_budget := decide (limit_amount < spent_amount) }

/-- Status classification exactly as the specification words it: thresholds
on the (unrounded) percentage value, closed at 70/90/100. -/
def statusOfPercentage (p : ℚ) : BudgetStatus :=
  if p ≥ 100 then BudgetStatus.exceeded
  else if p ≥ 90 then BudgetStatus.critical
  else if p ≥ 70 then BudgetStatus.warning
  else BudgetStatus.safe

/-- C1: with a positive limit, the status is the threshold classification of
the unrounded value `spent / limit * 100`; in particular spent 700 against
limit 1000 gives percentage 70 and status WARNING, not SAFE. -/
theorem budget_status_from_unrounded_percentage :
    (∀ spent limit : ℚ, 0 < limit →
      (calculate_budget_progress spent limit).status
        = statusOfPercentage (spent / limit * 100))
    ∧ (calculate_budget_progress 700 1000).percentage_used = 70
    ∧ (calculate_budget_progress 700 1000).status = BudgetStatus.warning := by
  refine ⟨fun spent limit h => ?_,
    by norm_num [calculate_budget_progress, round2, roundHalfEven],
    by norm_num [calculate_budget_progress]⟩
  simp only [calculate_budget_progress, statusOfPercentage, if_pos h]

/-- Witness for C1 at spent = 450, limit = 500 (percentage 90, CRITICAL). -/
theorem budget_status_from_unrounded_percentage_witness :
    (calculate_budget_progress 450 500).status = statusOfPercentage (450 / 500 * 100) :=
  budget_status_from_unrounded_percentage.1 450 500 (by norm_num)

/-- C6: the engine never divides by zero: with a positive limit
`percentage_used` is the rounded quotient, and with limit 0 the division
branch is skipped, `percentage_used` is 0 and the status is SAFE. -/
theorem budget_progress_no_div_by_zero :
    (∀ spent limit : ℚ, 0 < limit →
      (calculate_budget_progress spent limit).percentage_used
        = round2 (spent / limit * 100))
    ∧ (∀ spent : ℚ,
        (calculate_budget_progress spent 0).percentage_used = 0
        ∧ (calculate_budget_progress spent 0).status = BudgetStatus.safe) := by
  constructor
  · intro spent limit h
    simp only [calculate_budget_progress, if_pos h]
  · intro spent
    constructor
    · norm_num [calculate_budget_progress, round2, roundHalfEven]
    · norm_num [calculate_budget_progress]

/-- Witness for C6 at spent = 5, limit = 8 and at limit = 0. -/
theorem budget_progress_no_div_by_zero_witness :
    (calculate_budget_progress 5 8).percentage_used = round2 (5 / 8 * 100)
    ∧ (calculate_budget_progress 5 0).percentage_used = 0 :=
  ⟨budget_progress_no_div_by_zero.1 5 8 (by norm_num),
   (budget_progress_no_div_by_zero.2 5).1⟩

/-- C8: `remaining_amount` is exactly `limit_amount - spent_amount`, and is
negative whenever spending exceeds the limit. -/
theorem remaining_amount_exact :
    (∀ spent limit : ℚ,
      (calculate_budget_progress spent limit).remaining_amount = limit - spent)
    ∧ (∀ spent limit : ℚ, limit < spent →
      (calculate_budget_progress spent limit).remaining_amount < 0) := by
  constructor
  · intro spent limit
    simp [calculate_budget_progress]
  · intro spent limit h
    simp [calculate_budget_progress]
    linarith

/-- Witness for C8 at spent = 1200, limit = 1000 (remaining -200). -/
theorem remaining_amount_exact_witness :
    (calculate_budget_progress 1200 1000).remaining_amount = 1000 - 1200
    ∧ (calculate_budget_progress 1200 1000).remaining_amount < 0 :=
  ⟨remaining_amount_exact.1 1200 1000,
   remaining_amount_exact.2 1200 1000 (by norm_num)⟩

/-- C9: `is_over_budget` holds iff `spent_amount > limit_amount`,
independently of the status; at `spent = limit` with a positive limit the
flag is false although the status is EXCEEDED. -/
theorem is_over_budget_iff_strictly_over :
    (∀ spent limit : ℚ,
      (calculate_budget_progress spent limit).is_over_budget = decide (limit < spent))
    ∧ (∀ limit : ℚ, 0 < limit →
      (calculate_budget_progress limit limit).is_over_budget = false
      ∧ (calculate_budget_progress limit limit).status = BudgetStatus.exceeded) := by
  constructor
  · intro spent limit
    simp [calculate_budget_progress]
  · intro limit h
    have hne : limit ≠ 0 := ne_of_gt h
    have hdiv : limit / limit = 1 := div_self hne
    constructor
    · simp [calculate_budget_progress]
    · simp [calculate_budget_progress, if_pos h, hdiv]

/-- Witness for C9 at spent = limit = 250. -/
theorem is_over_budget_iff_strictly_over_witness :
    (calculate_budget_progress 250 250).is_over_budget = false
    ∧ (calculate_budget_progress 250 250).status = BudgetStatus.exceeded :=
  is_over_budget_iff_strictly_over.2 250 (by norm_num)

/-! ## Income vs expenses aggregation

Embedding of `get_income_vs_expenses`
(`src/app/services/influx_service.py`, lines 130-182).  The two Flux
queries return query results; a query result is a list of tables, each
holding a list of record values. -/

/-- A time-series query result: tables of record values. -/
abbrev QueryResult := List (List ℚ)

/-- The fold the source performs over a query result (influx_service.py
lines 167-175): `total = 0`, then for every table and every record,
`total = record.get_value()`.  The body assigns instead of accumulating,
so the result is the value of the last record seen, or 0 if there is
none. -/
def lastRecordValue (tables : QueryResult) : ℚ :=
  tables.foldl (fun acc records => records.foldl (fun _ v => v) acc) 0

/-- The total the specification asks for: the sum of all record values of
the query result. -/
def sumRecordValues (tables : QueryResult) : ℚ :=
  (tables.map List.sum).sum

structure IncomeVsExpenses where
  total_income : ℚ
  total_expenses : ℚ
  net_savings : ℚ
  savings_rate : ℚ
deriving DecidableEq, Repr

/-- The result-shaping part of `get_income_vs_expenses` (influx_service.py
lines 164-182), applied to the results of the income query and the
expenses query. -/
def get_income_vs_expenses (income_result expenses_result : QueryResult) :
    IncomeVsExpenses :=
  let total_income := lastRecordValue income_result
  let total_expenses := lastRecordValue expenses_result
  { total_income := total_income
    total_expenses := total_expenses
    net_savings := total_income - total_expenses
    savings_rate :=
      if total_income > 0 then (total_income - total_expenses) / total_income * 100
      else 0 }

/-- C4 (code bug): when the income query returns two aggregated records
(values 2000 and 3000), the code reports `total_income = 3000` — the last
record value — while the sum of the returned records is 5000; the
no-income-records case does default to 0. -/
theorem total_income_is_last_record_not_sum :
    (get_income_vs_expenses [[2000], [3000]] []).total_income = 3000
    ∧ sumRecordValues [[2000], [3000]] = 5000
    ∧ (3000 : ℚ) ≠ 5000
    ∧ (get_income_vs_expenses [] []).total_income = 0 := by
  refine ⟨?_, ?_, by norm_num, ?_⟩
  · norm_num [get_income_vs_expenses, lastRecordValue]
  · norm_num [sumRecordValues]
  · norm_num [get_income_vs_expenses, lastRecordValue]

/-- C5: whatever totals the aggregation produced, `net_savings` is their
difference and `savings_rate` is `net_savings / total_income * 100` when
`total_income` is positive and 0 otherwise; totals 5000 and 3000 give net
savings 2000 and rate 40, and zero income gives rate 0 with no division
error. -/
theorem net_savings_and_savings_rate :
    (∀ income_result expenses_result : QueryResult,
      (get_income_vs_expenses income_result expenses_result).net_savings
        = (get_income_vs_expenses income_result expenses_result).total_income
          - (get_income_vs_expenses income_result expenses_result).total_expenses
      ∧ (get_income_vs_expenses income_result expenses_result).savings_rate
        = if 0 < (get_income_vs_expenses income_result expenses_result).total_income
          then (get_income_vs_expenses income_result expenses_result).net_savings
              / (get_income_vs_expenses income_result expenses_result).total_income * 100
          else 0)
    ∧ (get_income_vs_expenses [[5000]] [[3000]]).net_savings = 2000
    ∧ (get_income_vs_expenses [[5000]] [[3000]]).savings_rate = 40
    ∧ (get_income_vs_expenses [] [[3000]]).total_income = 0
    ∧ (get_income_vs_expenses [] [[3000]]).savings_rate = 0 := by
  refine ⟨fun income_result expenses_result => ⟨?_, ?_⟩, ?_, ?_, ?_, ?_⟩
  · simp [get_income_vs_expenses]
  · simp [get_income_vs_expenses, gt_iff_lt]
  · norm_num [get_income_vs_expenses, lastRecordValue]
  · norm_num [get_income_vs_expenses, lastRecordValue]
  · norm_num [get_income_vs_expenses, lastRecordValue]
  · norm_num [get_income_vs_expenses, lastRecordValue]

/-! ## Analytics range endpoints

Embedding of the four range-validated endpoints of
`src/app/api/v1/endpoints/analytics.py`: spending trend (lines 9-39),
category breakdown (lines 41-69), income vs expenses (lines 71-99) and
savings rate (lines 138-169).  Timestamps are integers (only their order
matters here).  Each endpoint is modelled after the dates have been
defaulted, is parameterised by the service function it would call, and
returns the response together with the list of service calls it issued;
the endpoints are pure reads, no state is modelled because none is
touched. -/

inductive AnalyticsError where
  | invalidRange
deriving DecidableEq, Repr

/-- A query issued to the time-series service by a range endpoint. -/
inductive ServiceCall where
  | spendingTrend (start_date end_date : ℤ) (interval : String)
  | categoryBreakdown (start_date end_date : ℤ)
  | incomeVsExpenses (start_date end_date : ℤ)
deriving DecidableEq, Repr

structure TrendResponse where
  start_date : ℤ
  end_date : ℤ
  interval : String
  data_points : List (ℤ × ℚ)
deriving DecidableEq, Repr

structure BreakdownResponse where
  start_date : ℤ
  end_date : ℤ
  categories : List (String × ℚ)
deriving DecidableEq, Repr

structure IncomeVsExpensesResponse where
  start_date : ℤ
  end_date : ℤ
  data : IncomeVsExpenses
deriving DecidableEq, Repr

structure SavingsRateResponse where
  start_date : ℤ
  end_date : ℤ
  total_income : ℚ
  total_expenses : ℚ
  net_savings : ℚ
  savings_rate_percentage : ℚ
deriving DecidableEq, Repr

namespace Analytics

/-- Endpoint `GET /spending-trend` (analytics.py lines 9-39): reject
`start_date >= end_date`, otherwise call the trend service. -/
def get_spending_trend (start_date end_date : ℤ) (interval : String)
    (svc : ℤ → ℤ → String → List (ℤ × ℚ)) :
    Except AnalyticsError TrendResponse × List ServiceCall :=
  if start_date ≥ end_date then (Except.error AnalyticsError.invalidRange, [])
  else
    (Except.ok
      { start_date := start_date
        end_date := end_date
        interval := interval
        data_points := svc start_date end_date interval },
     [ServiceCall.spendingTrend start_date end_date interval])

/-- Endpoint `GET /category-breakdown` (analytics.py lines 41-69). -/
def get_category_breakdown (start_date end_date : ℤ)
    (svc : ℤ → ℤ → List (String × ℚ)) :
    Except AnalyticsError BreakdownResponse × List ServiceCall :=
  if start_date ≥ end_date then (Except.error AnalyticsError.invalidRange, [])
  else
    (Except.ok
      { start_date := start_date
        end_date := end_date
        categories := svc start_date end_date },
     [ServiceCall.categoryBreakdown start_date end_date])

/-- Endpoint `GET /income-vs-expenses` (analytics.py lines 71-99). -/
def get_income_vs_expenses (start_date end_date : ℤ)
    (svc : ℤ → ℤ → IncomeVsExpenses) :
    Except AnalyticsError IncomeVsExpensesResponse × List ServiceCall :=
  if start_date ≥ end_date then (Except.error AnalyticsError.invalidRange, [])
  else
    (Except.ok
      { start_date := start_date
        end_date := end_date
        data := svc start_date end_date },
     [ServiceCall.incomeVsExpenses start_date end_date])

/-- Endpoint `GET /savings-rate` (analytics.py lines 138-169): reuses the
income-vs-expenses service and renames the rate field. -/
def get_savings_rate (start_date end_date : ℤ)
    (svc : ℤ → ℤ → IncomeVsExpenses) :
    Except AnalyticsError SavingsRateResponse × List ServiceCall :=
  if start_date ≥ end_date then (Except.error AnalyticsError.invalidRange, [])
  else
    let data := svc start_date end_date
    (Except.ok
      { start_date := start_date
        end_date := end_date
        total_income := data.total_income
        total_expenses := data.total_expenses
        net_savings := data.net_savings
        savings_rate_percentage := data.savings_rate },
     [ServiceCall.incomeVsExpenses start_date end_date])

end Analytics

/-- C7: every range endpoint, given `start_date >= end_date`, fails with the
invalid-range error and issues no service call at all, whatever the
service would have answered; the endpoints are pure reads, so no state is
changed. -/
theorem range_endpoints_reject_before_querying :
    ∀ start_date end_date : ℤ, end_date ≤ start_date →
      (∀ interval svc,
        Analytics.get_spending_trend start_date end_date interval svc
          = (Except.error AnalyticsError.invalidRange, []))
      ∧ (∀ svc,
        Analytics.get_category_breakdown start_date end_date svc
          = (Except.error AnalyticsError.invalidRange, []))
      ∧ (∀ svc,
        Analytics.get_income_vs_expenses start_date end_date svc
          = (Except.error AnalyticsError.invalidRange, []))
      ∧ (∀ svc,
        Analytics.get_savings_rate start_date end_date svc
          = (Except.error AnalyticsError.invalidRange, [])) := by
  intro start_date end_date h
  have hge : start_date ≥ end_date := h
  refine ⟨fun interval svc => ?_, fun svc => ?_, fun svc => ?_, fun svc => ?_⟩
  · simp [Analytics.get_spending_trend, if_pos hge]
  · simp [Analytics.get_category_breakdown, if_pos hge]
  · simp [Analytics.get_income_vs_expenses, if_pos hge]
  · simp [Analytics.get_savings_rate, if_pos hge]

/-- Witness for C7 at start_date = 5, end_date = 5 (an empty range). -/
theorem range_endpoints_reject_before_querying_witness :
    Analytics.get_spending_trend 5 5 "1d" (fun _ _ _ => [])
      = (Except.error AnalyticsError.invalidRange, [])
    ∧ Analytics.get_savings_rate 5 5
        (fun _ _ => get_income_vs_expenses [] [])
      = (Except.error AnalyticsError.invalidRange, []) :=
  ⟨(range_endpoints_reject_before_querying 5 5 (by norm_num)).1 "1d" (fun _ _ _ => []),
   (range_endpoints_reject_before_querying 5 5 (by norm_num)).2.2.2
     (fun _ _ => get_income_vs_expenses [] [])⟩

/-! ## Budget store operations

Embedding of `create_budget` (budgets.py lines 77-126), `update_budget`
(lines 214-267) and `delete_budget` (lines 269-290).  The document store
is a list of id/budget pairs together with the next id to assign.
Timestamps are integers. -/

structure Budget where
  category : String
  limit_amount : ℚ
  period : String
  start_date : ℤ
  end_date : ℤ
  alert_threshold : ℚ
deriving DecidableEq, Repr

/-- Partial update payload: every field optional, absent fields are left
unchanged (`model_dump(exclude_unset=True)`). -/
structure BudgetUpdate where
  category : Option String
  limit_amount : Option ℚ
  period : Option String
  start_date : Option ℤ
  end_date : Option ℤ
  alert_threshold : Option ℚ
deriving DecidableEq, Repr

def BudgetUpdate.empty : BudgetUpdate :=
  { category := none, limit_amount := none, period := none
    start_date := none, end_date := none, alert_threshold := none }

structure BudgetStore where
  next_id : ℕ
  budgets : List (ℕ × Budget)
deriving DecidableEq, Repr

inductive BudgetError where
  | invalidDates
  | overlapConflict
  | notFound
  | emptyUpdate
deriving DecidableEq, Repr

/-- The Mongo filter of the overlap check in `create_budget` (budgets.py
lines 99-111): same category, and either the existing window contains the
new one, or the standard inclusive interval test holds. -/
def overlapFilter (new : Budget) (e : Budget) : Bool :=
  e.category == new.category
  && ((decide (e.start_date ≤ new.start_date) && decide (e.end_date ≥ new.end_date))
      || (decide (e.start_date ≤ new.end_date) && decide (e.end_date ≥ new.start_date)))

/-- `POST /budgets` (budgets.py lines 77-126): validate the dates, search
for a same-category budget matching the overlap filter, then insert. -/
def create_budget (st : BudgetStore) (b : Budget) : Except BudgetError BudgetStore :=
  if b.end_date ≤ b.start_date then Except.error BudgetError.invalidDates
  else if (st.budgets.find? fun p => overlapFilter b p.2).isSome then
    Except.error BudgetError.overlapConflict
  else
    Except.ok { next_id := st.next_id + 1, budgets := st.budgets ++ [(st.next_id, b)] }

/-- `PUT /budgets/{id}` (budgets.py lines 214-267): reject an unknown id
and an empty patch, validate the merged dates, apply the patch.  The
source performs NO overlap re-check here. -/
def update_budget (st : BudgetStore) (id : ℕ) (u : BudgetUpdate) :
    Except BudgetError BudgetStore :=
  match st.budgets.find? fun p => p.1 == id with
  | none => Except.error BudgetError.notFound
  | some (_, existing) =>
    if u = BudgetUpdate.empty then Except.error BudgetError.emptyUpdate
    else
      let start_date := u.start_date.getD existing.start_date
      let end_date := u.end_date.getD existing.end_date
      if end_date ≤ start_date then Except.error BudgetError.invalidDates
      else
        let patched : Budget :=
          { category := u.category.getD existing.category
            limit_amount := u.limit_amount.getD existing.limit_amount
            period := u.period.getD existing.period
            start_date := start_date
            end_date := end_date
            alert_threshold := u.alert_threshold.getD existing.alert_threshold }
        Except.ok
          { st with budgets := st.budgets.map fun p => if p.1 = id then (p.1, patched) else p }

/-- `DELETE /budgets/{id}` (budgets.py lines 269-290). -/
def delete_budget (st : BudgetStore) (id : ℕ) : Except BudgetError BudgetStore :=
  if (st.budgets.find? fun p => p.1 == id).isSome then
    Except.ok { st with budgets := st.budgets.filter fun p => p.1 ≠ id }
  else Except.error BudgetError.notFound

/-- The spec's inclusive window-overlap relation between two budgets of the
same category. -/
def overlaps (a b : Budget) : Prop :=
  a.category = b.category ∧ a.start_date ≤ b.end_date ∧ b.start_date ≤ a.end_date

instance (a b : Budget) : Decidable (overlaps a b) := by
  unfold overlaps
  infer_instance

/-- The per-category no-overlap invariant over a stored budget list. -/
def budgetInvariant (st : BudgetStore) : Prop :=
  st.budgets.Pairwise fun p q => ¬ overlaps p.2 q.2

/-- C3: with a valid window, creation is rejected with the overlap conflict
iff some stored budget of the same category passes the inclusive interval
test; [Dec 1, Dec 15] vs [Dec 10, Dec 20] conflicts, [Dec 16, Dec 20]
does not (dates as day numbers of December). -/
theorem create_budget_overlap_iff :
    (∀ (st : BudgetStore) (b : Budget), b.start_date < b.end_date →
      (create_budget st b = Except.error BudgetError.overlapConflict
        ↔ ∃ p ∈ st.budgets, p.2.category = b.category
            ∧ p.2.start_date ≤ b.end_date ∧ b.start_date ≤ p.2.end_date))
    ∧ create_budget ⟨1, [(0, ⟨"food", 500, "monthly", 1, 15, 1⟩)]⟩
        ⟨"food", 500, "monthly", 10, 20, 1⟩
        = Except.error BudgetError.overlapConflict
    ∧ create_budget ⟨1, [(0, ⟨"food", 500, "monthly", 1, 15, 1⟩)]⟩
        ⟨"food", 500, "monthly", 16, 20, 1⟩
        = Except.ok ⟨2, [(0, ⟨"food", 500, "monthly", 1, 15, 1⟩),
                         (1, ⟨"food", 500, "monthly", 16, 20, 1⟩)]⟩ := by
  refine ⟨fun st b hb => ?_, by rfl, by rfl⟩
  have hse : ¬ b.end_date ≤ b.start_date := not_le.2 hb
  rw [create_budget, if_neg hse]
  constructor
  · intro h
    by_cases hfind : (st.budgets.find? fun p => overlapFilter b p.2).isSome
    · obtain ⟨p, hp, hfilter⟩ := List.find?_isSome.1 hfind
      refine ⟨p, hp, ?_⟩
      simp only [overlapFilter, Bool.and_eq_true, Bool.or_eq_true, beq_iff_eq,
        decide_eq_true_eq, ge_iff_le] at hfilter
      obtain ⟨hcat, hclauses⟩ := hfilter
      refine ⟨hcat, ?_⟩
      rcases hclauses with ⟨h1, h2⟩ | ⟨h1, h2⟩
      · exact ⟨le_trans h1 (le_of_lt hb), le_trans (le_of_lt hb) h2⟩
      · exact ⟨h1, h2⟩
    · rw [if_neg hfind] at h
      exact absurd h (by simp)
  · rintro ⟨p, hp, hcat, h1, h2⟩
    have hfind : (st.budgets.find? fun p => overlapFilter b p.2).isSome := by
      refine List.find?_isSome.2 ⟨p, hp, ?_⟩
      simp only [overlapFilter, Bool.and_eq_true, Bool.or_eq_true, beq_iff_eq,
        decide_eq_true_eq, ge_iff_le]
      exact ⟨hcat, Or.inr ⟨h1, h2⟩⟩
    rw [if_pos hfind]

/-- Witness for C3: the iff applied to the singleton food store and the
overlapping December window. -/
theorem create_budget_overlap_iff_witness :
    create_budget ⟨1, [(0, ⟨"food", 500, "monthly", 1, 15, 1⟩)]⟩
        ⟨"food", 500, "monthly", 10, 20, 1⟩
      = Except.error BudgetError.overlapConflict :=
  (create_budget_overlap_iff.1 ⟨1, [(0, ⟨"food", 500, "monthly", 1, 15, 1⟩)]⟩
      ⟨"food", 500, "monthly", 10, 20, 1⟩ (by norm_num)).2
    ⟨(0, ⟨"food", 500, "monthly", 1, 15, 1⟩), by simp, rfl, by norm_num, by norm_num⟩

/-- A successful budget creation extends a store satisfying the no-overlap
invariant into one that still satisfies it: the overlap filter admitted no
stored budget of the new budget's category. -/
theorem create_budget_preserves_invariant {st st' : BudgetStore} {b : Budget}
    (hinv : budgetInvariant st) (h : create_budget st b = Except.ok st') :
    budgetInvariant st' := by
  rw [create_budget] at h
  by_cases hd : b.end_date ≤ b.start_date
  · rw [if_pos hd] at h
    exact absurd h (by simp)
  · rw [if_neg hd] at h
    by_cases hfind : (st.budgets.find? fun p => overlapFilter b p.2).isSome
    · rw [if_pos hfind] at h
      exact absurd h (by simp)
    · rw [if_neg hfind] at h
      have hnone : (st.budgets.find? fun p => overlapFilter b p.2) = none :=
        Option.not_isSome_iff_eq_none.1 hfind
      have hall : ∀ p ∈ st.budgets, ¬ overlapFilter b p.2 = true :=
        fun p hp => List.find?_eq_none.1 hnone p hp
      injection h with h1
      subst h1
      unfold budgetInvariant at hinv ⊢
      rw [List.pairwise_append]
      refine ⟨hinv, List.pairwise_singleton _ _, ?_⟩
      intro p hp q hq
      have hq1 : q = (st.next_id, b) := List.mem_singleton.1 hq
      subst hq1
      have hfilter := hall p hp
      simp only [overlapFilter, Bool.and_eq_true, Bool.or_eq_true, beq_iff_eq,
        decide_eq_true_eq, ge_iff_le, not_or, not_and_or] at hfilter
      intro hover
      obtain ⟨hcat, h1, h2⟩ := hover
      rcases hfilter with hne | ⟨_, hno2⟩
      · exact hne hcat
      · rcases hno2 with hx | hx
        · exact hx h1
        · exact hx h2

/-- A successful budget deletion preserves the no-overlap invariant: the
remaining list is a sublist of the original. -/
theorem delete_budget_preserves_invariant {st st' : BudgetStore} {id : ℕ}
    (hinv : budgetInvariant st) (h : delete_budget st id = Except.ok st') :
    budgetInvariant st' := by
  rw [delete_budget] at h
  by_cases hfind : (st.budgets.find? fun p => p.1 == id).isSome
  · rw [if_pos hfind] at h
    injection h with h1
    subst h1
    exact List.Pairwise.sublist (List.filter_sublist _) hinv
  · rw [if_neg hfind] at h
    exact absurd h (by simp)

/-- An operation on the budget store that re-checks the overlap invariant:
creation or deletion (updates do not re-check it). -/
inductive CDOp where
  | createOp (b : Budget)
  | deleteOp (id : ℕ)

/-- Apply one create/delete operation; a failed operation leaves the store
unchanged, as the endpoint raises before writing. -/
def applyCDOp (st : BudgetStore) (op : CDOp) : BudgetStore :=
  match op with
  | CDOp.createOp b =>
    match create_budget st b with
    | Except.ok st' => st'
    | Except.error _ => st
  | CDOp.deleteOp id =>
    match delete_budget st id with
    | Except.ok st' => st'
    | Except.error _ => st

/-- Run a sequence of create/delete operations from the empty store. -/
def runCDOps (ops : List CDOp) : BudgetStore :=
  ops.foldl applyCDOp ⟨0, []⟩

theorem applyCDOp_preserves_invariant {st : BudgetStore} (op : CDOp)
    (hinv : budgetInvariant st) : budgetInvariant (applyCDOp st op) := by
  cases op with
  | createOp b =>
    simp only [applyCDOp]
    cases h : create_budget st b with
    | ok st' => exact create_budget_preserves_invariant hinv h
    | error e => exact hinv
  | deleteOp id =>
    simp only [applyCDOp]
    cases h : delete_budget st id with
    | ok st' => exact delete_budget_preserves_invariant hinv h
    | error e => exact hinv

theorem foldl_applyCDOp_invariant (ops : List CDOp) :
    ∀ st : BudgetStore, budgetInvariant st → budgetInvariant (ops.foldl applyCDOp st) := by
  induction ops with
  | nil => exact fun st h => h
  | cons op rest ih =>
    intro st h
    exact ih (applyCDOp st op) (applyCDOp_preserves_invariant op h)

/-- C10 counterexample: a concrete run create; create; update reaches a
store violating the per-category no-overlap invariant, because
`update_budget` never re-checks overlap.  Two disjoint food budgets
[0, 5] and [10, 20] are created, then the second is moved to start at 3. -/
theorem budget_update_breaks_invariant :
    ((create_budget ⟨0, []⟩ ⟨"food", 500, "monthly", 0, 5, 1⟩).bind fun s1 =>
      (create_budget s1 ⟨"food", 500, "monthly", 10, 20, 1⟩).bind fun s2 =>
        update_budget s2 1 ⟨none, none, none, some 3, none, none⟩)
      = Except.ok ⟨2, [(0, ⟨"food", 500, "monthly", 0, 5, 1⟩),
                       (1, ⟨"food", 500, "monthly", 3, 20, 1⟩)]⟩
    ∧ ¬ budgetInvariant ⟨2, [(0, ⟨"food", 500, "monthly", 0, 5, 1⟩),
                             (1, ⟨"food", 500, "monthly", 3, 20, 1⟩)]⟩ := by
  constructor
  · rfl
  · intro h
    have hpair := List.pairwise_cons.1 h
    have := hpair.1 (1, ⟨"food", 500, "monthly", 3, 20, 1⟩) (List.mem_singleton.2 rfl)
    exact this ⟨rfl, by norm_num, by norm_num⟩

/-- C10 amended: every store reachable from the empty store by successful
or failed create and delete operations satisfies the per-category
no-overlap invariant (updates are excluded: they do not re-check it). -/
theorem create_delete_reachable_invariant (ops : List CDOp) :
    budgetInvariant (runCDOps ops) :=
  foldl_applyCDOp_invariant ops ⟨0, []⟩ (List.Pairwise.nil)

/-! ## Monthly comparison month arithmetic

Embedding of the calendar part of `get_monthly_comparison`
(`src/app/api/v1/endpoints/analytics.py`, lines 101-136).  The source
computes, for each `i < months`,
`month_start = (now - timedelta(days = 30 * i)).replace(day = 1, ...)`
and `month_end` as the first moment of the following month minus one
second, labels the entry with `month_start.strftime("%Y-%m")` and asks
the income-vs-expenses service for that window.  We model the proleptic
Gregorian civil calendar and exact day subtraction (what `timedelta`
does); the per-month service summary carries no calendar content and is
not needed for the claim about boundaries and labels. -/

structure CivilDate where
  year : ℤ
  month : ℤ
  day : ℤ
deriving DecidableEq, Repr

def isLeapYear (y : ℤ) : Bool :=
  (y % 4 == 0 && y % 100 != 0) || y % 400 == 0

def daysInMonth (y m : ℤ) : ℤ :=
  if m = 2 then (if isLeapYear y then 29 else 28)
  else if m = 4 ∨ m = 6 ∨ m = 9 ∨ m = 11 then 30
  else 31

/-- The calendar day before `d`. -/
def predDay (d : CivilDate) : CivilDate :=
  if 1 < d.day then { d with day := d.day - 1 }
  else if 1 < d.month then
    { year := d.year, month := d.month - 1, day := daysInMonth d.year (d.month - 1) }
  else { year := d.year - 1, month := 12, day := 31 }

/-- `d - timedelta(days = n)`: exact calendar-day subtraction. -/
def subDays (d : CivilDate) : ℕ → CivilDate
  | 0 => d
  | n + 1 => predDay (subDays d n)

/-- A timestamp: a civil date plus the second of the day (0 to 86399). -/
structure Timestamp where
  date : CivilDate
  sec_of_day : ℤ
deriving DecidableEq, Repr

/-- `month_start` of entry `i` (analytics.py line 115): subtract `30 * i`
days from `now`, then replace the day by 1 and zero the time of day. -/
def monthStartOf (now : CivilDate) (i : ℕ) : CivilDate :=
  let d := subDays now (30 * i)
  { year := d.year, month := d.month, day := 1 }

/-- First day of the month after `ms` (analytics.py lines 118-121). -/
def nextMonthStart (ms : CivilDate) : CivilDate :=
  if ms.month = 12 then { year := ms.year + 1, month := 1, day := 1 }
  else { year := ms.year, month := ms.month + 1, day := 1 }

/-- `month_end`: the first moment of the following month minus one
second, i.e. 23:59:59 on the last day of the month of `ms`. -/
def monthEnd (ms : CivilDate) : Timestamp :=
  { date := predDay (nextMonthStart ms), sec_of_day := 86399 }

def pad2 (n : ℤ) : String :=
  if n < 10 then "0" ++ toString n else toString n

def pad4 (n : ℤ) : String :=
  if n < 10 then "000" ++ toString n
  else if n < 100 then "00" ++ toString n
  else if n < 1000 then "0" ++ toString n
  else toString n

/-- `month_start.strftime("%Y-%m")`. -/
def monthLabel (ms : CivilDate) : String :=
  pad4 ms.year ++ "-" ++ pad2 ms.month

structure MonthEntry where
  month : String
  month_start : Timestamp
  month_end : Timestamp
deriving DecidableEq, Repr

/-- The month list built by `get_monthly_comparison` (analytics.py lines
110-131): one entry per `i` in `range(months)`, in that order. -/
def get_monthly_comparison (now : Timestamp) (months : ℕ) : List MonthEntry :=
  (List.range months).map fun i =>
    let ms := monthStartOf now.date i
    { month := monthLabel ms
      month_start := { date := ms, sec_of_day := 0 }
      month_end := monthEnd ms }

set_option maxRecDepth 8000 in
/-- C2 (code bug): the entry count always equals `months`, but the months
are not the distinct consecutive calendar months before `now`: with
`now` = 2026-01-31 00:00:00 and `months` = 2, both entries are labelled
"2026-01" (January twice, with identical windows), where the claim
requires "2026-01" then "2025-12". -/
theorem monthly_comparison_repeats_month :
    (∀ (now : Timestamp) (months : ℕ),
      (get_monthly_comparison now months).length = months)
    ∧ (get_monthly_comparison ⟨⟨2026, 1, 31⟩, 0⟩ 2).map MonthEntry.month
        = ["2026-01", "2026-01"]
    ∧ ("2026-01" : String) ≠ "2025-12" := by
  refine ⟨fun now months => by simp [get_monthly_comparison], ?_, by decide⟩
  rfl

end FinanceTracker
